import Mathlib

/-!
Verification development for the py-webdav calendar gateway.

This file shallowly embeds the parts of the repository that the checked
claims are about:

* `py_webdav/caldav/inform_backend.py` — the INFORM CalDAV backend
  (outbound/inbound event translation, object listing, PUT/DELETE and
  their preconditions, object-path parsing);
* `py_webdav/inform_calendar_utils.py` — the shared converter (series
  schema to RRULE, first-occurrence computation, outbound translation);
* `py_webdav/server.py` — the HTTP layer around PUT (status codes,
  conditional headers) and the filesystem PROPPATCH handler;
* `py_webdav/internal/server.py` — the multistatus wrapping of PROPPATCH.

Python dictionaries that travel between the INFORM API and the translator
are modelled as structures with optional fields; ISO date and datetime
strings are modelled structurally as `Date` and `DateTimeUTC` values (the
fromisoformat / strftime bridge is the evident bijection on the formats
the code emits).  The icalendar library serialize/parse round trip is
modelled as the identity on the VEVENT component model, except for the
RRULE property, which the outbound side stores as a string and the inbound
side reads back as a parsed parameter map: that parse is embedded as
`parseRRuleString`.  The dateutil RRULE engine used by
`calculate_first_occurrence` is modelled by `dayMatches` and
`findFirstFrom` for the rule shapes this code generates.  The zoneinfo Europe/Berlin timezone is
modelled by the EU daylight-saving rule (in force since 1996), which
agrees with tzdata on every date used in this file.
-/

deriving instance DecidableEq for Except

namespace PyWebdav

/-- Calendar date, as carried in the ISO `YYYY-MM-DD` strings of the
INFORM API and in Python `datetime.date` values. -/
structure Date where
  year : Int
  month : Nat
  day : Nat
  deriving Repr, DecidableEq

/-- Leap-year test of the proleptic Gregorian calendar (Python
`calendar.isleap`). -/
def isLeap (y : Int) : Bool :=
  y % 4 == 0 && (y % 100 != 0 || y % 400 == 0)

/-- Number of days of month `m` in year `y`. -/
def daysInMonth (y : Int) (m : Nat) : Nat :=
  if m == 2 then (if isLeap y then 29 else 28)
  else if m == 4 || m == 6 || m == 9 || m == 11 then 30
  else 31

/-- Days since 1970-01-01 of a civil date (Howard Hinnant
`days_from_civil`; Python `date.toordinal` shifted by the epoch). -/
def daysFromCivil (d : Date) : Int :=
  let y : Int := if d.month <= 2 then d.year - 1 else d.year
  -- Lean integer division already floors, so no negative adjustment is
  -- needed in the era computations.
  let era : Int := y / 400
  let yoe : Int := y - era * 400
  let mp : Int := (Int.ofNat d.month + 9) % 12
  let doy : Int := (153 * mp + 2) / 5 + Int.ofNat d.day - 1
  let doe : Int := yoe * 365 + yoe / 4 - yoe / 100 + doy
  era * 146097 + doe - 719468

/-- Civil date of a day count since 1970-01-01 (Howard Hinnant
`civil_from_days`). -/
def civilFromDays (z0 : Int) : Date :=
  let z : Int := z0 + 719468
  let era : Int := z / 146097
  let doe : Int := z - era * 146097
  let yoe : Int := (doe - doe / 1460 + doe / 36524 - doe / 146096) / 365
  let y : Int := yoe + era * 400
  let doy : Int := doe - (365 * yoe + yoe / 4 - yoe / 100)
  let mp : Int := (5 * doy + 2) / 153
  let d : Int := doy - (153 * mp + 2) / 5 + 1
  let m : Int := if mp < 10 then mp + 3 else mp - 9
  { year := if m <= 2 then y + 1 else y, month := m.toNat, day := d.toNat }

/-- Shift a date by a signed number of days. -/
def addDays (d : Date) (n : Int) : Date :=
  civilFromDays (daysFromCivil d + n)

/-- Day of week with Monday = 0 .. Sunday = 6 (Python
`date.weekday`).  1970-01-01 was a Thursday. -/
def weekdayNum (d : Date) : Nat :=
  ((daysFromCivil d + 3) % 7).toNat

/-- The Monday beginning the week containing `d` (WKST=MO, the dateutil
default). -/
def weekStart (d : Date) : Int :=
  daysFromCivil d - Int.ofNat (weekdayNum d)

/-- Month count `year * 12 + (month - 1)`, used for MONTHLY interval
arithmetic. -/
def monthIndex (d : Date) : Int :=
  d.year * 12 + Int.ofNat d.month - 1

/-- An instant in UTC: a civil date plus seconds from midnight.  Models
a timezone-aware Python `datetime` in UTC. -/
structure DateTimeUTC where
  date : Date
  sec : Nat
  deriving Repr, DecidableEq

/-- Hour component of the seconds-from-midnight field. -/
def DateTimeUTC.hour (t : DateTimeUTC) : Nat := t.sec / 3600

/-- Minute component of the seconds-from-midnight field. -/
def DateTimeUTC.minute (t : DateTimeUTC) : Nat := t.sec % 3600 / 60

/-- Second component of the seconds-from-midnight field. -/
def DateTimeUTC.second (t : DateTimeUTC) : Nat := t.sec % 60

/-- Absolute second count of an instant, for duration arithmetic. -/
def DateTimeUTC.toSeconds (t : DateTimeUTC) : Int :=
  daysFromCivil t.date * 86400 + Int.ofNat t.sec

/-- Instant from an absolute second count. -/
def dateTimeFromSeconds (s : Int) : DateTimeUTC :=
  let day : Int := s / 86400
  { date := civilFromDays day, sec := (s - day * 86400).toNat }

/-- Shift an instant by a signed number of seconds. -/
def DateTimeUTC.addSeconds (t : DateTimeUTC) (n : Int) : DateTimeUTC :=
  dateTimeFromSeconds (t.toSeconds + n)

/-- Last Sunday of month `m` in year `y` (used by the EU
daylight-saving rule). -/
def lastSundayDay (y : Int) (m : Nat) : Nat :=
  let last : Date := { year := y, month := m, day := daysInMonth y m }
  -- Sunday has weekdayNum 6; step back to the latest Sunday.
  daysInMonth y m - ((weekdayNum last + 1) % 7)

/-- UTC offset, in seconds, of the Europe/Berlin timezone at a local
wall-clock instant.  Models `zoneinfo.ZoneInfo("Europe/Berlin")` under
the EU rule in force since 1996: UTC+2 from 02:00 local on the last
Sunday of March until 03:00 local on the last Sunday of October
(fold = 0), otherwise UTC+1. -/
def berlinOffset (d : Date) (localSec : Nat) : Int :=
  let marS := lastSundayDay d.year 3
  let octS := lastSundayDay d.year 10
  let afterStart :=
    d.month > 3 || (d.month == 3 && (d.day > marS ||
      (d.day == marS && localSec ≥ 3 * 3600)))
  let beforeEnd :=
    d.month < 10 || (d.month == 10 && (d.day < octS ||
      (d.day == octS && localSec < 3 * 3600)))
  if afterStart && beforeEnd then 7200 else 3600

/-- Wall-clock instant in the upstream local timezone converted to UTC
(`datetime.astimezone(UTC)` for a Europe/Berlin-tagged datetime). -/
def localBerlinToUTC (d : Date) (localSec : Nat) : DateTimeUTC :=
  dateTimeFromSeconds
    (daysFromCivil d * 86400 + Int.ofNat localSec - berlinOffset d localSec)

/-- Split a string at every occurrence of a separator character
(Python `str.split` / `String.splitOn` for one-character separators),
defined over the character list so that proofs can evaluate it. -/
def splitChar (sep : Char) (s : String) : List String :=
  (s.data.splitOn sep).map String.mk

/-- First `n` characters (Python slicing `s[:n]`). -/
def strTake (s : String) (n : Nat) : String := String.mk (s.data.take n)

/-- All but the first `n` characters (Python slicing `s[n:]`). -/
def strDrop (s : String) (n : Nat) : String := String.mk (s.data.drop n)

/-- All but the last `n` characters (Python slicing `s[:-n]`). -/
def strDropRight (s : String) (n : Nat) : String :=
  String.mk (s.data.take (s.data.length - n))

/-- Last `n` characters (Python slicing `s[-n:]`). -/
def strTakeRight (s : String) (n : Nat) : String :=
  String.mk (s.data.drop (s.data.length - n))

/-- Uppercase of every character (Python `str.upper` on ASCII). -/
def strUpper (s : String) : String := String.mk (s.data.map Char.toUpper)

/-- Join strings with a separator (Python `sep.join`). -/
def strIntercalate (sep : String) (ls : List String) : String :=
  String.mk (List.intercalate sep.data (ls.map String.data))

/-- Decimal parse of a string of digits (Python `int`, `String.toNat?`):
`none` unless the string is non-empty and all digits. -/
def strToNat? (s : String) : Option Nat :=
  if !s.data.isEmpty && s.data.all Char.isDigit then
    some (s.data.foldl (fun n c => n * 10 + (c.toNat - 48)) 0)
  else none

/-- Containment of a character sequence (Python `needle in hay`). -/
def listContainsSeq (needle : List Char) : List Char → Bool
  | [] => needle.isEmpty
  | c :: rest => needle.isPrefixOf (c :: rest) || listContainsSeq needle rest

/-- INFORM series schema: the tagged union carried in the `seriesSchema`
JSON object (`schemaType` plus the type-specific data dictionary).
Constructor names combine the `schemaType` and `regularity` values of the
source dictionaries; weekday names stay strings, as in the source. -/
inductive SeriesSchema
  | dailyAllBusinessDays
  | dailyInterval (daysInterval : Nat)
  | weekly (weekdays : List String) (weeksInterval : Nat)
  | monthlySpecificDate (dayOfMonth : Nat) (monthsInterval : Nat)
  | monthlySpecificDay (weekday : String) (weekNumber : Nat) (monthsInterval : Nat)
  | yearlySpecificDate (monthOfYear : Nat) (dayOfMonth : Nat)
  | yearlySpecificDay (monthOfYear : Nat) (weekday : String) (weekNumber : Nat)
  | arrhythmic
  deriving Repr, DecidableEq

/-- The INFORM-name to iCal-code weekday table (`day_map` of
`inform_series_schema_to_rrule`). -/
def weekdayTable : List (String × String) :=
  [("monday", "MO"), ("tuesday", "TU"), ("wednesday", "WE"),
   ("thursday", "TH"), ("friday", "FR"), ("saturday", "SA"),
   ("sunday", "SU")]

/-- Weekly-branch lookup `day_map.get(d, d.upper()[:2])`. -/
def dayMapICal (d : String) : String :=
  match weekdayTable.find? (fun p => p.1 == d) with
  | some p => p.2
  | none => strTake (strUpper d) 2

/-- Monthly/yearly-branch lookup `day_map.get(weekday, "MO")`. -/
def dayMapICalD (d : String) : String :=
  match weekdayTable.find? (fun p => p.1 == d) with
  | some p => p.2
  | none => "MO"

/-- Inbound lookup `day_map.get(code, "monday")` of
`_rrule_to_inform_series_schema`. -/
def dayMapInform (c : String) : String :=
  match weekdayTable.find? (fun p => p.2 == c) with
  | some p => p.1
  | none => "monday"

/-- Embeds `inform_series_schema_to_rrule` (identical in
`inform_calendar_utils.py` lines 118-252 and, as
`_inform_series_schema_to_rrule`, in `caldav/inform_backend.py` lines
158-272): the `seriesSchema` to RRULE-string conversion, `none` for the
arrhythmic variant. -/
def inform_series_schema_to_rrule : SeriesSchema → Option String
  | .dailyAllBusinessDays => some "FREQ=WEEKLY;BYDAY=MO,TU,WE,TH,FR"
  | .dailyInterval n => some ("FREQ=DAILY;INTERVAL=" ++ toString n)
  | .weekly ws n =>
      let byday := strIntercalate "," (ws.map dayMapICal)
      if n == 1 then some ("FREQ=WEEKLY;BYDAY=" ++ byday)
      else some ("FREQ=WEEKLY;INTERVAL=" ++ toString n ++ ";BYDAY=" ++ byday)
  | .monthlySpecificDate d n =>
      if n == 1 then some ("FREQ=MONTHLY;BYMONTHDAY=" ++ toString d)
      else some ("FREQ=MONTHLY;INTERVAL=" ++ toString n ++ ";BYMONTHDAY=" ++
        toString d)
  | .monthlySpecificDay wd wk n =>
      let byday := toString wk ++ dayMapICalD wd
      if n == 1 then some ("FREQ=MONTHLY;BYDAY=" ++ byday)
      else some ("FREQ=MONTHLY;INTERVAL=" ++ toString n ++ ";BYDAY=" ++ byday)
  | .yearlySpecificDate m d =>
      some ("FREQ=YEARLY;BYMONTH=" ++ toString m ++ ";BYMONTHDAY=" ++ toString d)
  | .yearlySpecificDay m wd wk =>
      some ("FREQ=YEARLY;BYMONTH=" ++ toString m ++ ";BYDAY=" ++ toString wk ++
        dayMapICalD wd)
  | .arrhythmic => none

/-- Parsed RRULE parameter map, as the icalendar `vRecur` dictionary
presents it to `_rrule_to_inform_series_schema` after an RRULE property
string has been serialized and re-parsed. -/
structure RRuleData where
  freq : String
  interval : Option Nat
  byday : Option (List String)
  bymonthday : Option Nat
  bymonth : Option Nat
  untilDate : Option Date
  deriving Repr, DecidableEq

/-- First value of an RRULE parameter in a `K=V` part list. -/
def lookupParam (ps : List (String × String)) (k : String) : Option String :=
  (ps.find? (fun p => p.1 == k)).map (fun p => p.2)

/-- Date of an `UNTIL=YYYYMMDDTHHMMSSZ` parameter value. -/
def parseUntilValue (v : String) : Option Date :=
  match strToNat? (strTake v 4), strToNat? (strTake (strDrop v 4) 2),
      strToNat? (strTake (strDrop v 6) 2) with
  | some y, some m, some d => some { year := Int.ofNat y, month := m, day := d }
  | _, _, _ => none

/-- Parse of an RRULE property string into the parameter map the inbound
translator consumes.  Models the icalendar serialize/parse bridge for the
RRULE strings `inform_series_schema_to_rrule` emits (semicolon-separated
`K=V` parts, comma-separated BYDAY values). -/
def parseRRuleString (s : String) : RRuleData :=
  let ps := (splitChar ';' s).filterMap (fun part =>
    match splitChar '=' part with
    | [k, v] => some (k, v)
    | _ => none)
  { freq := (lookupParam ps "FREQ").getD "DAILY"
    interval := (lookupParam ps "INTERVAL").bind strToNat?
    byday := (lookupParam ps "BYDAY").map (fun v => splitChar ',' v)
    bymonthday := (lookupParam ps "BYMONTHDAY").bind strToNat?
    bymonth := (lookupParam ps "BYMONTH").bind strToNat?
    untilDate := (lookupParam ps "UNTIL").bind parseUntilValue }

/-- Python set equality of two BYDAY code lists
(`set(byday) == \x7b"MO", "TU", "WE", "TH", "FR"\x7d`). -/
def sameDaySet (a b : List String) : Bool :=
  a.all b.contains && b.all a.contains

/-- Digit value of the leading character and trailing two-character
weekday code of a BYDAY entry, as `_rrule_to_inform_series_schema` reads
them (`int(byday_str[0]) if byday_str[0].isdigit() else 1` and
`byday_str[-2:]`). -/
def bydayEntryParts (b : String) : Nat × String :=
  let wk := match b.data with
    | c :: _ => if c.isDigit then c.toNat - 48 else 1
    | [] => 1
  (wk, strTakeRight b 2)

/-- Embeds `_rrule_to_inform_series_schema` (`caldav/inform_backend.py`
lines 716-859): the inverse mapping from a parsed RRULE to an INFORM
`seriesSchema`.  An absent or empty BYDAY list is falsy in the source, so
both fall through like the absent case. -/
def rrule_to_inform_series_schema (r : RRuleData) : SeriesSchema :=
  let freq := strUpper r.freq
  let interval := r.interval.getD 1
  if freq == "DAILY" then
    match r.byday with
    | some bd =>
        if !bd.isEmpty && sameDaySet bd ["MO", "TU", "WE", "TH", "FR"] then
          .dailyAllBusinessDays
        else .dailyInterval interval
    | none => .dailyInterval interval
  else if freq == "WEEKLY" then
    .weekly ((r.byday.getD []).map dayMapInform) interval
  else if freq == "MONTHLY" then
    match r.bymonthday with
    | some d => .monthlySpecificDate d interval
    | none =>
        match r.byday with
        | some (b :: _) =>
            let parts := bydayEntryParts b
            .monthlySpecificDay (dayMapInform parts.2) parts.1 interval
        | _ => .dailyInterval 1
  else if freq == "YEARLY" then
    let month := r.bymonth.getD 1
    match r.bymonthday with
    | some d => .yearlySpecificDate month d
    | none =>
        match r.byday with
        | some (b :: _) =>
            let parts := bydayEntryParts b
            .yearlySpecificDay month (dayMapInform parts.2) parts.1
        | _ => .dailyInterval 1
  else .dailyInterval 1

/-- Weekday number (Monday = 0) of an iCal weekday code. -/
def bydayCodeToNum (c : String) : Option Nat :=
  (weekdayTable.enum.find? (fun p => p.2.2 == c)).map (fun p => p.1)

/-- Optional ordinal prefix and weekday number of a BYDAY entry
(`1MO`, `MO`, ...), `none` when dateutil would reject the entry. -/
def parseBydayEntry (b : String) : Option (Nat × Nat) :=
  let digits := String.mk (b.data.takeWhile Char.isDigit)
  let rest := String.mk (b.data.dropWhile Char.isDigit)
  match bydayCodeToNum rest with
  | none => none
  | some w =>
      if digits.data.isEmpty then some (0, w)
      else match strToNat? digits with
        | some n => if n ≥ 1 then some (n, w) else none
        | none => none

/-- Restriction of a parsed rule to the domain where the dateutil
`rrulestr` engine accepts the strings `inform_series_schema_to_rrule`
emits: one of the four regular frequencies, well-formed BYDAY entries
(bare codes for WEEKLY, ordinal plus code for MONTHLY/YEARLY), and a
month anchor for YEARLY. -/
def ruleOk (r : RRuleData) : Bool :=
  if r.freq == "DAILY" then true
  else if r.freq == "WEEKLY" then
    match r.byday with
    | some bd =>
        !bd.isEmpty && bd.all (fun b => match parseBydayEntry b with
          | some p => p.1 == 0
          | none => false)
    | none => true
  else if r.freq == "MONTHLY" then
    r.bymonthday.isSome ||
      (match r.byday with
       | some (b :: _) => (parseBydayEntry b).isSome
       | _ => false)
  else if r.freq == "YEARLY" then
    r.bymonth.isSome &&
      (r.bymonthday.isSome ||
        (match r.byday with
         | some (b :: _) => (parseBydayEntry b).isSome
         | _ => false))
  else false

/-- `d` lies in a period the rule visits and satisfies its BY
constraints, for a recurrence anchored at `anchor`: the day-selection
behaviour of the dateutil engine on the rule shapes this code generates
(WKST = MO, the dateutil default). -/
def dayMatches (r : RRuleData) (anchor d : Date) : Bool :=
  let interval : Int := Int.ofNat (r.interval.getD 1)
  if r.freq == "DAILY" then
    (daysFromCivil d - daysFromCivil anchor) % interval == 0
  else if r.freq == "WEEKLY" then
    let codes := (r.byday.getD []).filterMap
      (fun b => (parseBydayEntry b).map (fun p => p.2))
    codes.contains (weekdayNum d) &&
      ((weekStart d - weekStart anchor) / 7) % interval == 0
  else if r.freq == "MONTHLY" then
    ((monthIndex d - monthIndex anchor) % interval == 0) &&
      (match r.bymonthday with
       | some md => d.day == md
       | none =>
          ((r.byday.getD []).filterMap parseBydayEntry).any (fun p =>
            weekdayNum d == p.2 && (p.1 == 0 || (d.day - 1) / 7 + 1 == p.1)))
  else if r.freq == "YEARLY" then
    ((d.year - anchor.year) % interval == 0) &&
      r.bymonth == some d.month &&
      (match r.bymonthday with
       | some md => d.day == md
       | none =>
          ((r.byday.getD []).filterMap parseBydayEntry).any (fun p =>
            weekdayNum d == p.2 && (p.1 == 0 || (d.day - 1) / 7 + 1 == p.1)))
  else false

/-- Fuel-bounded scan over day ordinals for the first day at or after
ordinal `z` whose civil date satisfies `p`. -/
def findFirstFrom (p : Date → Bool) : Nat → Int → Option Int
  | 0, _ => none
  | n + 1, z => if p (civilFromDays z) then some z else findFirstFrom p n (z + 1)

/-- Scan bound for `calculate_first_occurrence`; large enough for every
rule the generator emits with the intervals the theorems below quantify
over. -/
def searchFuel : Nat := 1500

/-- Embeds `calculate_first_occurrence` (`inform_calendar_utils.py`
lines 254-291; identical as `_calculate_first_occurrence` in
`caldav/inform_backend.py` lines 274-302): evaluate the RRULE with a
provisional DTSTART equal to the series anchor and take the first
yielded instance; on any parse or evaluation failure fall back to the
anchor itself (the `except` branch).  The dateutil engine is modelled by
`dayMatches`/`findFirstDay`; the instance keeps the time-of-day of the
anchor, as dateutil does for rules with no BYHOUR parts. -/
def calculate_first_occurrence (seriesStart : DateTimeUTC)
    (rruleStr : String) : DateTimeUTC :=
  let r := parseRRuleString rruleStr
  if ruleOk r then
    match findFirstFrom (dayMatches r seriesStart.date) searchFuel
        (daysFromCivil seriesStart.date) with
    | some z => { date := civilFromDays z, sec := seriesStart.sec }
    | none => seriesStart
  else seriesStart

/-- Left-pad a decimal rendering with zeros. -/
def padZero (w : Nat) (s : String) : String :=
  String.mk (List.replicate (w - s.length) '0') ++ s

/-- Two-digit rendering of a field value. -/
def pad2 (n : Nat) : String := padZero 2 (toString n)

/-- ISO `YYYY-MM-DD` rendering of a date (`strftime("%Y-%m-%d")`,
`date.isoformat()`). -/
def renderDateISO (d : Date) : String :=
  padZero 4 (toString d.year) ++ "-" ++ pad2 d.month ++ "-" ++ pad2 d.day

/-- Compact `YYYYMMDD` rendering of a date (`strftime("%Y%m%d")`). -/
def renderDateCompact (d : Date) : String :=
  padZero 4 (toString d.year) ++ pad2 d.month ++ pad2 d.day

/-- Compact `YYYYMMDDTHHMMSSZ` rendering of a UTC instant
(`strftime("%Y%m%dT%H%M%SZ")`). -/
def renderDTCompact (t : DateTimeUTC) : String :=
  renderDateCompact t.date ++ "T" ++ pad2 t.hour ++ pad2 t.minute ++
    pad2 t.second ++ "Z"

/-- Upstream event record, as the dictionaries the INFORM API exchanges
with the translator.  Optional fields model dictionary keys that may be
absent; `privateEvent` stands for the `private` key (a reserved word in
Lean); occurrence times are integral seconds from midnight. -/
structure InformEvent where
  key : String := ""
  subject : Option String := none
  content : Option String := none
  location : Option String := none
  eventCategory : Option String := none
  eventMode : String := "single"
  startDateTime : Option DateTimeUTC := none
  endDateTime : Option DateTimeUTC := none
  seriesStartDate : Option Date := none
  seriesEndDate : Option Date := none
  occurrenceStartTime : Nat := 0
  occurrenceEndTime : Nat := 0
  occurrenceStartTimeEnabled : Bool := false
  occurrenceEndTimeEnabled : Bool := false
  startDateTimeEnabled : Bool := false
  endDateTimeEnabled : Bool := false
  wholeDayEvent : Bool := false
  privateEvent : Option Bool := none
  reminderEnabled : Bool := false
  remindBeforeStart : Nat := 0
  occurrenceId : Option String := none
  seriesSchema : Option SeriesSchema := none
  deriving Repr, DecidableEq

/-- A DTSTART/DTEND value: a bare date (all-day) or a UTC instant. -/
inductive ICalDT
  | dateOnly (d : Date)
  | dateTime (t : DateTimeUTC)
  deriving Repr, DecidableEq

/-- VEVENT component model: the properties the translators read and
write.  `classProp` stands for the `CLASS` property; `rrule` holds the
property as the string the outbound side stores; `alarmTrigger` is the
VALARM trigger duration in seconds (negative means before start). -/
structure ICalEvent where
  uid : String
  summary : Option String := none
  location : Option String := none
  categories : Option String := none
  classProp : Option String := none
  description : Option String := none
  dtstart : Option ICalDT := none
  dtend : Option ICalDT := none
  rrule : Option String := none
  alarmTrigger : Option Int := none
  dtstamp : DateTimeUTC
  deriving Repr, DecidableEq

/-- Embeds `_occurrence_time_to_utc` (`caldav/inform_backend.py` lines
100-133; identical as `occurrence_time_to_utc` in
`inform_calendar_utils.py` lines 79-116): split the seconds-from-midnight
into hour/minute/second fields, tag with the configured upstream local
timezone (Europe/Berlin, the default), convert to UTC. -/
def occurrence_time_to_utc (d : Date) (secondsFromMidnight : Nat) :
    DateTimeUTC :=
  let hours := secondsFromMidnight / 3600
  let minutes := secondsFromMidnight % 3600 / 60
  let seconds := secondsFromMidnight % 60
  localBerlinToUTC d (hours * 3600 + minutes * 60 + seconds)

/-- Substring test for `";UNTIL=" not in rrule_str`. -/
def containsUntilClause (s : String) : Bool :=
  listContainsSeq ";UNTIL=".data s.data

/-- JSON rendering of a series schema used only inside the `[DEBUG]`
description block (`json.dumps(series_schema)`), modelled with the field
order of the source dictionaries. -/
def dumpSeriesSchema : SeriesSchema → String
  | .dailyAllBusinessDays =>
      "\x7b\"schemaType\": \"daily\", \"dailySchemaData\": " ++
        "\x7b\"regularity\": \"allBusinessDays\"\x7d\x7d"
  | .dailyInterval n =>
      "\x7b\"schemaType\": \"daily\", \"dailySchemaData\": " ++
        "\x7b\"regularity\": \"interval\", \"daysInterval\": " ++ toString n ++
        "\x7d\x7d"
  | .weekly ws n =>
      "\x7b\"schemaType\": \"weekly\", \"weeklySchemaData\": " ++
        "\x7b\"weekdays\": [" ++
        strIntercalate ", " (ws.map (fun w => "\"" ++ w ++ "\"")) ++
        "], \"weeksInterval\": " ++ toString n ++ "\x7d\x7d"
  | .monthlySpecificDate d n =>
      "\x7b\"schemaType\": \"monthly\", \"monthlySchemaData\": " ++
        "\x7b\"regularity\": \"specificDate\", \"dayOfMonth\": " ++
        toString d ++ ", \"monthsInterval\": " ++ toString n ++ "\x7d\x7d"
  | .monthlySpecificDay wd wk n =>
      "\x7b\"schemaType\": \"monthly\", \"monthlySchemaData\": " ++
        "\x7b\"regularity\": \"specificDay\", \"weekday\": \"" ++ wd ++
        "\", \"weekNumber\": " ++ toString wk ++ ", \"monthsInterval\": " ++
        toString n ++ "\x7d\x7d"
  | .yearlySpecificDate m d =>
      "\x7b\"schemaType\": \"yearly\", \"yearlySchemaData\": " ++
        "\x7b\"regularity\": \"specificDate\", \"monthOfYear\": " ++
        toString m ++ ", \"dayOfMonth\": " ++ toString d ++ "\x7d\x7d"
  | .yearlySpecificDay m wd wk =>
      "\x7b\"schemaType\": \"yearly\", \"yearlySchemaData\": " ++
        "\x7b\"regularity\": \"specificDay\", \"monthOfYear\": " ++
        toString m ++ ", \"weekday\": \"" ++ wd ++ "\", \"weekNumber\": " ++
        toString wk ++ "\x7d\x7d"
  | .arrhythmic => "\x7b\"schemaType\": \"arrhythmic\"\x7d"

/-- The `[DEBUG]` description block `_inform_event_to_ical` appends
(`caldav/inform_backend.py` lines 540-572), given the final RRULE
property value if one was added. -/
def debugDescription (e : InformEvent) (rruleFinal : Option String) :
    String :=
  let base := ["[DEBUG] Event ID: " ++ e.key,
               "[DEBUG] Event Mode: " ++ e.eventMode]
  let serialLines :=
    if e.eventMode == "serial" && e.seriesSchema.isSome then
      ["[DEBUG] Series Schema: " ++
         dumpSeriesSchema (e.seriesSchema.getD .arrhythmic),
       "[DEBUG] Series Start: " ++
         (match e.seriesStartDate with
          | some d => renderDateISO d
          | none => "N/A"),
       "[DEBUG] Series End: " ++
         (match e.seriesEndDate with
          | some d => renderDateISO d
          | none => "N/A")] ++
      (match rruleFinal with
       | some r => ["[DEBUG] Generated RRULE: " ++ r]
       | none => [])
    else []
  let debugJoined := strIntercalate "\n" (base ++ serialLines)
  match e.content with
  | some c => if c == "" then debugJoined else c ++ "\n\n" ++ debugJoined
  | none => debugJoined

/-- Embeds `_inform_event_to_ical` (`caldav/inform_backend.py` lines
395-579): outbound translation of an upstream event record to the VEVENT
component, including the serial-branch RRULE synthesis, first-occurrence
recomputation, UNTIL clause, alarm, CLASS and `[DEBUG]` description.
`now` is the clock reading the source takes with `datetime.now(UTC)` for
DTSTAMP. -/
def inform_event_to_ical (e : InformEvent) (now : DateTimeUTC) : ICalEvent :=
  let subject := e.subject.getD ""
  let rruleStr : Option String :=
    if e.eventMode == "serial" then
      match e.seriesSchema with
      | some s => inform_series_schema_to_rrule s
      | none => none
    else none
  let startEnd : Option ICalDT × Option ICalDT :=
    if e.eventMode == "single" then
      ((e.startDateTime.map (fun t =>
          if e.wholeDayEvent then ICalDT.dateOnly t.date
          else ICalDT.dateTime t)),
       (e.endDateTime.map (fun t =>
          if e.wholeDayEvent then ICalDT.dateOnly t.date
          else ICalDT.dateTime t)))
    else if e.eventMode == "serial" then
      match e.seriesStartDate with
      | none => (none, none)
      | some sd =>
          if e.wholeDayEvent then
            match rruleStr with
            | some r =>
                let f := calculate_first_occurrence { date := sd, sec := 0 } r
                (some (.dateOnly f.date), some (.dateOnly f.date))
            | none => (some (.dateOnly sd), some (.dateOnly sd))
          else
            let startDT := occurrence_time_to_utc sd e.occurrenceStartTime
            let endDT := occurrence_time_to_utc sd e.occurrenceEndTime
            match rruleStr with
            | some r =>
                let f := calculate_first_occurrence startDT r
                let duration := endDT.toSeconds - startDT.toSeconds
                (some (.dateTime f), some (.dateTime (f.addSeconds duration)))
            | none => (some (.dateTime startDT), some (.dateTime endDT))
    else (none, none)
  let rruleFinal : Option String :=
    match rruleStr, e.seriesEndDate with
    | some r, some ed =>
        if !containsUntilClause r then
          some (r ++ ";UNTIL=" ++ renderDateCompact ed ++ "T235959Z")
        else some r
    | some r, none => some r
    | none, _ => none
  { uid := e.key
    summary := if subject == "" then none else some subject
    location := match e.location with
      | some l => if l == "" then none else some l
      | none => none
    categories := match e.eventCategory with
      | some c => if c == "" then none else some c
      | none => none
    classProp := some (if e.privateEvent.getD false then "PRIVATE" else "PUBLIC")
    description := some (debugDescription e rruleFinal)
    dtstart := startEnd.1
    dtend := startEnd.2
    rrule := rruleFinal
    alarmTrigger :=
      if e.reminderEnabled && e.remindBeforeStart > 0 then
        some (-(Int.ofNat e.remindBeforeStart))
      else none
    dtstamp := now }

/-- Embeds `_ical_to_inform_event` (`caldav/inform_backend.py` lines
581-714): inbound translation of the (single) VEVENT to an upstream
event dictionary.  Raises where the source raises: the missing-VEVENT
check is outside this component model, and a missing DTSTART surfaces
as the `AttributeError` of `event.get("dtstart").dt`.  The CATEGORIES
read is omitted: the parsed property is an icalendar `vCategory`, so the
`isinstance(categories, list)` guard of the source is never taken and
`eventCategory` is never set. -/
def ical_to_inform_event (ev : ICalEvent) : Except String InformEvent :=
  let privateEvent := ev.classProp.map (fun c => c.toUpper == "PRIVATE")
  let alarm : Bool × Nat :=
    match ev.alarmTrigger with
    | some t => (true, t.natAbs)
    | none => (false, 0)
  match ev.rrule with
  | some r =>
      match ev.dtstart with
      | none => .error "webdav: event has no dtstart"
      | some ds =>
          let startFields : Date × Nat × Bool :=
            match ds with
            | .dateTime t => (t.date, t.hour * 3600 + t.minute * 60, false)
            | .dateOnly d => (d, 0, true)
          let endTime : Option Nat :=
            match ev.dtend with
            | some (.dateTime t) => some (t.hour * 3600 + t.minute * 60)
            | some (.dateOnly _) => some 86340
            | none => none
          let rd := parseRRuleString r
          .ok { eventMode := "serial"
                subject := ev.summary
                content := ev.description
                location := ev.location
                privateEvent := privateEvent
                seriesStartDate := some startFields.1
                occurrenceStartTime := startFields.2.1
                occurrenceStartTimeEnabled := true
                wholeDayEvent := startFields.2.2
                occurrenceEndTime := (endTime.getD 0)
                occurrenceEndTimeEnabled := endTime.isSome
                seriesSchema := some (rrule_to_inform_series_schema rd)
                seriesEndDate := rd.untilDate
                reminderEnabled := alarm.1
                remindBeforeStart := alarm.2 }
  | none =>
      match ev.dtstart with
      | none => .error "webdav: event has no dtstart"
      | some ds =>
          let startFields : DateTimeUTC × Bool :=
            match ds with
            | .dateTime t => (t, false)
            | .dateOnly d => ({ date := d, sec := 0 }, true)
          let endDT : Option DateTimeUTC :=
            match ev.dtend with
            | some (.dateTime t) => some t
            | some (.dateOnly d) => some { date := d, sec := 0 }
            | none => none
          .ok { eventMode := "single"
                subject := ev.summary
                content := ev.description
                location := ev.location
                privateEvent := privateEvent
                startDateTime := some startFields.1
                startDateTimeEnabled := true
                wholeDayEvent := startFields.2
                endDateTime := endDT
                endDateTimeEnabled := endDT.isSome
                reminderEnabled := alarm.1
                remindBeforeStart := alarm.2 }

/-- Embeds `_inform_occurrence_to_ical` (`caldav/inform_backend.py`
lines 304-393): conversion of a single listing record (or full event
treated as one occurrence) into a standalone VEVENT with no RRULE.
`now` is the DTSTAMP clock reading. -/
def inform_occurrence_to_ical (e : InformEvent) (now : DateTimeUTC) :
    ICalEvent :=
  let uid := match e.occurrenceId with
    | some oid => e.key ++ "-" ++ oid
    | none => e.key
  { uid := uid
    summary := match e.subject with
      | some s => if s == "" then none else some s
      | none => none
    description := match e.content with
      | some c => if c == "" then none else some c
      | none => none
    location := match e.location with
      | some l => if l == "" then none else some l
      | none => none
    categories := match e.eventCategory with
      | some c => if c == "" then none else some c
      | none => none
    dtstart := e.startDateTime.map (fun t =>
      if e.wholeDayEvent then ICalDT.dateOnly t.date else ICalDT.dateTime t)
    dtend := e.endDateTime.map (fun t =>
      if e.wholeDayEvent then ICalDT.dateOnly t.date else ICalDT.dateTime t)
    rrule := none
    alarmTrigger :=
      if e.reminderEnabled && e.remindBeforeStart > 0 then
        some (-(Int.ofNat e.remindBeforeStart))
      else none
    classProp := some (if e.privateEvent.getD false then "PRIVATE" else "PUBLIC")
    dtstamp := now }

/-- One content line of the serialized body, CRLF-terminated. -/
def icalLine (s : String) : String := s ++ "\r\n"

/-- Rendering of a DTSTART/DTEND property (icalendar emits
`;VALUE=DATE:` for date values and a `...Z` UTC datetime otherwise). -/
def renderDTProp (name : String) : ICalDT → String
  | .dateOnly d => icalLine (name ++ ";VALUE=DATE:" ++ renderDateCompact d)
  | .dateTime t => icalLine (name ++ ":" ++ renderDTCompact t)

/-- Body prefix of the serialized VEVENT: everything before the DTSTAMP
line, in the property order `_inform_occurrence_to_ical` adds them. -/
def renderOccurrencePrefix (ev : ICalEvent) : String :=
  icalLine "BEGIN:VCALENDAR" ++
  icalLine "PRODID:-//INFORM CalDAV Backend//" ++
  icalLine "VERSION:2.0" ++
  icalLine "BEGIN:VEVENT" ++
  icalLine ("UID:" ++ ev.uid) ++
  (match ev.summary with
   | some s => icalLine ("SUMMARY:" ++ s)
   | none => "") ++
  (match ev.description with
   | some s => icalLine ("DESCRIPTION:" ++ s)
   | none => "") ++
  (match ev.location with
   | some s => icalLine ("LOCATION:" ++ s)
   | none => "") ++
  (match ev.categories with
   | some s => icalLine ("CATEGORIES:" ++ s)
   | none => "") ++
  (match ev.dtstart with
   | some v => renderDTProp "DTSTART" v
   | none => "") ++
  (match ev.dtend with
   | some v => renderDTProp "DTEND" v
   | none => "") ++
  (match ev.alarmTrigger with
   | some t =>
       icalLine "BEGIN:VALARM" ++
       icalLine "ACTION:DISPLAY" ++
       icalLine ("DESCRIPTION:" ++ (ev.summary.getD "Reminder")) ++
       icalLine ("TRIGGER:-PT" ++ toString t.natAbs ++ "S") ++
       icalLine "END:VALARM"
   | none => "") ++
  (match ev.classProp with
   | some c => icalLine ("CLASS:" ++ c)
   | none => "")

/-- Serialization of the VEVENT built by `inform_occurrence_to_ical`
into the iCalendar body string (`cal.to_ical().decode("utf-8")`), with
the property order that converter uses.  Text escaping and line folding
of the icalendar serializer are not modelled; they affect none of the
properties stated below. -/
def renderOccurrenceICal (ev : ICalEvent) : String :=
  renderOccurrencePrefix ev ++
  icalLine ("DTSTAMP:" ++ renderDTCompact ev.dtstamp) ++
  icalLine "END:VEVENT" ++
  icalLine "END:VCALENDAR"

/-- Hex rendering of a 64-bit word. -/
def hex64 (h : Nat) : String :=
  let hexDigit (n : Nat) : Char :=
    if n < 10 then Char.ofNat (48 + n) else Char.ofNat (87 + n)
  String.mk ((List.range 16).map (fun i =>
    hexDigit (h / 16 ^ (15 - i) % 16)))

/-- Models `hashlib.md5(body.encode()).hexdigest()` as a deterministic
128-bit digest of the body (two 64-bit mixing folds rendered as 32 hex
characters).  Only the fact that the tag is a pure function of the body
bytes matters for the claims below; the MD5 compression function itself
is not modelled. -/
def md5hex (s : String) : String :=
  let m : Nat := 18446744073709551616
  let h1 := s.data.foldl
    (fun h c => (h * 1099511628211 + c.toNat) % m) 14695981039346656037
  let h2 := s.data.foldl
    (fun h c => (h * 6364136223846793005 + c.toNat + 1442695040888963407) % m)
    88172645463325252
  hex64 h1 ++ hex64 h2

/-- CalDAV object resource, as the backend returns it (`CalendarObject`
of `caldav/caldav.py`): path, body, byte length and ETag. -/
structure CalendarObject where
  path : String
  data : String
  contentLength : Nat
  etag : String
  deriving Repr, DecidableEq

/-- Body and ETag of one listing record, as `list_calendar_objects`
computes them. -/
def occurrenceObject (calendarPath : String) (e : InformEvent)
    (now : DateTimeUTC) : CalendarObject :=
  let icalData := renderOccurrenceICal (inform_occurrence_to_ical e now)
  let objectPath := match e.occurrenceId with
    | some oid => calendarPath ++ e.key ++ "-" ++ oid ++ ".ics"
    | none => calendarPath ++ e.key ++ ".ics"
  { path := objectPath
    data := icalData
    contentLength := icalData.utf8ByteSize
    etag := md5hex icalData }

/-- Embeds `list_calendar_objects` (`caldav/inform_backend.py` lines
959-1017) after the occurrences endpoint has answered with `events`:
every record with a non-empty key becomes one standalone CalDAV object
(the `query_calendar_objects` loop, lines 1019-1082, is identical).
The per-record `except: continue` guard is unreachable in the model
because the record fields are already structured. -/
def list_calendar_objects (calendarPath : String)
    (events : List InformEvent) (now : DateTimeUTC) : List CalendarObject :=
  (events.filter (fun e => e.key != "")).map
    (fun e => occurrenceObject calendarPath e now)

/-- Embeds `_parse_object_path` (`caldav/inform_backend.py` lines
135-156): strip the `calendars`/`default` segments and the `.ics`
extension; 404 when nothing remains. -/
def parse_object_path (path : String) : Except Nat String :=
  let parts := (splitChar '/' path).filter
    (fun p => p != "" && p != "calendars" && p != "default")
  match parts with
  | [] => .error 404
  | k :: _ => .ok (if ".ics".data.isSuffixOf k.data then strDropRight k 4 else k)

/-- Stem contains a hyphen (`"-" in path_str`). -/
def stemHasHyphen (stem : String) : Bool :=
  (splitChar '-' stem).length > 1

/-- Calls the backend issues to the upstream API client. -/
inductive UpstreamCall
  | getEvent (key : String)
  | getOccurrences
  | createEvent
  | updateEvent (key : String)
  | deleteEvent (key : String)
  deriving Repr, DecidableEq

/-- The 405 message of `put_calendar_object` for hyphenated stems. -/
def putOccurrenceMessage : String :=
  "Modifying individual occurrences is not supported. Create a new event or modify the entire series."

/-- The 405 message of `delete_calendar_object` for hyphenated stems. -/
def deleteOccurrenceMessage : String :=
  "Deleting individual occurrences is not supported. Delete the entire series or modify it to exclude this occurrence."

/-- Embeds `put_calendar_object` (`caldav/inform_backend.py` lines
1084-1168) with the upstream responses supplied as arguments:
`eventExists` is what the existence probe `get_calendar_event(event_key)`
reports, `createdKey` the key the upstream assigns on create, and
`finalEvent` the record the closing `get_calendar_event(key, all)`
read-back returns.  The result pairs the HTTP outcome with the trace of
upstream calls issued. -/
def put_calendar_object (path : String) (body : ICalEvent)
    (eventExists : Bool) (createdKey : String) (finalEvent : InformEvent)
    (now : DateTimeUTC) (ifNoneMatch : Bool) (ifMatch : Option String) :
    Except (Nat × String) CalendarObject × List UpstreamCall :=
  match parse_object_path path with
  | .error c => (.error (c, "Invalid object path: " ++ path), [])
  | .ok stem =>
      if stemHasHyphen stem then (.error (405, putOccurrenceMessage), [])
      else
        match ical_to_inform_event body with
        | .error m => (.error (400, "Invalid iCalendar data: " ++ m), [])
        | .ok _ =>
            let probe := [UpstreamCall.getEvent stem]
            if ifNoneMatch && eventExists then
              (.error (412, "Event already exists"), probe)
            else if ifMatch.isSome && !eventExists then
              (.error (412, "Event does not exist"), probe)
            else
              let key := if eventExists then stem else createdKey
              let calls := probe ++
                (if eventExists then [UpstreamCall.updateEvent stem]
                 else [UpstreamCall.createEvent]) ++
                [UpstreamCall.getEvent key]
              let resultICal :=
                renderOccurrenceICal (inform_occurrence_to_ical finalEvent now)
              let resultPath :=
                if eventExists then path
                else "/calendars/default/" ++ key ++ ".ics"
              (.ok { path := resultPath
                     data := resultICal
                     contentLength := resultICal.utf8ByteSize
                     etag := md5hex resultICal }, calls)

/-- Embeds `delete_calendar_object` (`caldav/inform_backend.py` lines
1170-1195); `upstreamHasEvent` is whether the upstream DELETE succeeds. -/
def delete_calendar_object (path : String) (upstreamHasEvent : Bool) :
    Except (Nat × String) Unit × List UpstreamCall :=
  match parse_object_path path with
  | .error c => (.error (c, "Invalid object path: " ++ path), [])
  | .ok stem =>
      if stemHasHyphen stem then (.error (405, deleteOccurrenceMessage), [])
      else if upstreamHasEvent then (.ok (), [UpstreamCall.deleteEvent stem])
      else
        (.error (404, "Event not found: " ++ stem),
         [UpstreamCall.deleteEvent stem])

/-- Identity resolution of `get_calendar_object`
(`caldav/inform_backend.py` lines 891-946): a stem containing a hyphen
is split at the last hyphen (`rsplit("-", 1)`) into key and occurrence
id and served from the occurrences window; otherwise the whole stem is
fetched as the event key.  Returns the resolved identity and the first
upstream call issued. -/
def get_calendar_object_resolution (path : String) :
    Except Nat ((String × Option String) × UpstreamCall) :=
  match parse_object_path path with
  | .error c => .error c
  | .ok stem =>
      if stemHasHyphen stem then
        let segs := splitChar '-' stem
        let key := strIntercalate "-" segs.dropLast
        let oid := segs.getLastD ""
        .ok ((key, some oid), UpstreamCall.getOccurrences)
      else
        .ok ((stem, none), UpstreamCall.getEvent stem)

/-- Modelled from the spec (section 4.6 resource identity, absent from
the code under `src/`): the claimed resolution first GETs the candidate
whole-stem key and, when it resolves, uses the whole stem as the event
key with no occurrence component. -/
def get_calendar_object_resolution_spec (path : String)
    (wholeStemResolves : Bool) :
    Except Nat ((String × Option String) × UpstreamCall) :=
  match parse_object_path path with
  | .error c => .error c
  | .ok stem =>
      if wholeStemResolves then
        .ok ((stem, none), UpstreamCall.getEvent stem)
      else if stemHasHyphen stem then
        let segs := splitChar '-' stem
        let key := strIntercalate "-" segs.dropLast
        let oid := segs.getLastD ""
        .ok ((key, some oid), UpstreamCall.getOccurrences)
      else
        .ok ((stem, none), UpstreamCall.getEvent stem)

/-- HTTP response of the PUT route. -/
structure HttpResponse where
  status : Nat
  etagHeader : Option String
  body : String
  deriving Repr, DecidableEq

/-- Embeds the CalDAV PUT route of `Handler.handle` (`server.py` lines
629-668): `if_none_match` is the boolean
`request.headers.get("if-none-match") == "*"`, `if_match` the raw
header value; on success the new ETag is echoed quoted and the status is
`201 if if_none_match else 204`. -/
def caldav_put_route (putResult : Except (Nat × String) CalendarObject)
    (ifNoneMatch : Bool) : HttpResponse :=
  match putResult with
  | .ok obj =>
      { status := if ifNoneMatch then 201 else 204
        etagHeader :=
          if obj.etag != "" then some ("\"" ++ obj.etag ++ "\"") else none
        body := "" }
  | .error e => { status := e.1, etagHeader := none, body := e.2 }

/-- PROPPATCH request body: the property names of the `set` and
`remove` instructions (`PropertyUpdate.set_props` / `.remove`, each a
list of `Prop` groups carrying raw elements). -/
structure PropertyUpdate where
  setProps : List (List String)
  removeProps : List (List String)
  deriving Repr, DecidableEq

/-- One propstat group of a multistatus response. -/
structure PropStat where
  props : List String
  status : Nat
  deriving Repr, DecidableEq

/-- Embeds `WebDAVBackend.proppatch` (`server.py` lines 242-273).  The
method opens with `fi = await self.filesystem.stat(request.url.path)`
(line 244); `statResult` is that call's outcome — the stat path `fi.path`
used as the response href, or the `HTTPError` the filesystem raises (404
for a missing path, 403 for a forbidden one: `fs_local.py` `stat`), which
propagates out of the method.  On an existing target every named
property of the update lands in one 403 propstat; an update naming no
properties raises 400. -/
def webdav_proppatch (statResult : Except (Nat × String) String)
    (u : PropertyUpdate) :
    Except (Nat × String) (String × List PropStat) :=
  match statResult with
  | .error e => .error e
  | .ok fiPath =>
      let forbidden := u.setProps.flatten ++ u.removeProps.flatten
      let propstats : List PropStat :=
        if !forbidden.isEmpty then [{ props := forbidden, status := 403 }]
        else []
      if propstats.isEmpty then
        .error (400, "webdav: request missing properties to update")
      else .ok (fiPath, propstats)

/-- Embeds `Handler._handle_proppatch` (`internal/server.py` lines
210-218) together with the surrounding `handle` error shell (lines
146-173): a successful backend response is wrapped in a multistatus and
served with status 207; an `HTTPError` raised by the backend (including
the stat failure) escapes to the outer `except` and is served as that
error, not as a multistatus. -/
def handle_proppatch (statResult : Except (Nat × String) String)
    (u : PropertyUpdate) :
    Except (Nat × String) (Nat × List (String × List PropStat)) :=
  (webdav_proppatch statResult u).map (fun resp => (207, [resp]))

/-- UTC offset of Europe/Berlin at a UTC instant (DST is active from
01:00 UTC on the last Sunday of March to 01:00 UTC on the last Sunday
of October). -/
def berlinOffsetAtUTC (t : DateTimeUTC) : Int :=
  let marS := lastSundayDay t.date.year 3
  let octS := lastSundayDay t.date.year 10
  let afterStart := t.date.month > 3 || (t.date.month == 3 &&
    (t.date.day > marS || (t.date.day == marS && t.sec ≥ 3600)))
  let beforeEnd := t.date.month < 10 || (t.date.month == 10 &&
    (t.date.day < octS || (t.date.day == octS && t.sec < 3600)))
  if afterStart && beforeEnd then 7200 else 3600

/-- A UTC instant expressed as Europe/Berlin wall-clock time
(`astimezone` to the upstream timezone). -/
def utcToBerlinLocal (t : DateTimeUTC) : DateTimeUTC :=
  dateTimeFromSeconds (t.toSeconds + berlinOffsetAtUTC t)

/-- The claimed inbound occurrence-time computation, written from the
spec for comparison with the code (spec sections 4.3.3 and 4.3.4): a UTC
DTSTART is first converted to the configured upstream local timezone and
the seconds-from-midnight are `hour*3600 + minute*60 + second` of the
local wall-clock time. -/
def occurrenceStartTimeSpec (t : DateTimeUTC) : Nat :=
  let localT := utcToBerlinLocal t
  localT.hour * 3600 + localT.minute * 60 + localT.second

/-- `d` is an instance of the rule `rd` anchored at `anchor`, further
bounded by an optional UNTIL date (the `UNTIL=<date>T235959Z` clause the
outbound translator appends from `seriesEndDate`; a day at or before the
UNTIL date is within the bound for every time of day). -/
def instanceWithUntil (rd : RRuleData) (untl : Option Date)
    (anchor d : Date) : Bool :=
  dayMatches rd anchor d &&
    (match untl with
     | some u => decide (daysFromCivil d ≤ daysFromCivil u)
     | none => true)

/-- Modelled from the spec (section 4.1 conditional request evaluation,
absent from the code under `src/`, which never strips quotes or compares
ETag values): the quote stripping the claimed strong comparison applies
to a conditional header value. -/
def stripQuotes (s : String) : String :=
  if "\"".data.isPrefixOf s.data && "\"".data.isSuffixOf s.data then
    strDropRight (strDrop s 1) 1
  else s

/-- A shared concrete clock reading for the concrete inputs below. -/
def exNow : DateTimeUTC := { date := { year := 2026, month := 2, day := 1 }, sec := 43200 }

/-- Concrete serial whole-day event: allBusinessDays anchored on a
Monday (so the anchor already satisfies the rule). -/
def c1allBiz : InformEvent :=
  { key := "E1", subject := some "Standup", eventMode := "serial",
    wholeDayEvent := true,
    seriesStartDate := some { year := 2026, month := 1, day := 12 },
    seriesSchema := some .dailyAllBusinessDays }

/-- Concrete serial whole-day event: allBusinessDays anchored on a
Saturday (the first instance is the following Monday). -/
def c1sat : InformEvent :=
  { key := "E2", subject := some "Planning", eventMode := "serial",
    wholeDayEvent := true,
    seriesStartDate := some { year := 2026, month := 1, day := 10 },
    seriesSchema := some .dailyAllBusinessDays }

/-- Concrete serial timed event at local midnight: the Berlin-to-UTC
conversion moves DTSTART to 23:00 of the previous day. -/
def c1midnight : InformEvent :=
  { key := "E3", subject := some "Daily", eventMode := "serial",
    seriesStartDate := some { year := 2026, month := 1, day := 10 },
    occurrenceStartTime := 0, occurrenceEndTime := 3600,
    seriesSchema := some (.dailyInterval 1) }

/-- Concrete serial whole-day weekly event used as round-trip witness. -/
def c1weekly : InformEvent :=
  { key := "E4", subject := some "Sync", eventMode := "serial",
    wholeDayEvent := true,
    seriesStartDate := some { year := 2026, month := 1, day := 12 },
    seriesSchema := some (.weekly ["monday", "wednesday"] 2) }

/-- Concrete serial event whose `seriesEndDate` precedes the corrected
first occurrence: business days from Saturday 2026-01-10, ending
2026-01-11 (Sunday). -/
def c2event : InformEvent :=
  { key := "E5", subject := some "Seminar", eventMode := "serial",
    seriesStartDate := some { year := 2026, month := 1, day := 10 },
    occurrenceStartTime := 50400, occurrenceEndTime := 54000,
    seriesSchema := some .dailyAllBusinessDays,
    seriesEndDate := some { year := 2026, month := 1, day := 11 } }

/-- Concrete inbound VEVENT with an RRULE and a UTC datetime DTSTART of
2026-01-13T14:30:45Z. -/
def c3ical : ICalEvent :=
  { uid := "X1", rrule := some "FREQ=DAILY;INTERVAL=1",
    dtstart := some (.dateTime { date := { year := 2026, month := 1, day := 13 }, sec := 52245 }),
    dtend := some (.dateTime { date := { year := 2026, month := 1, day := 13 }, sec := 55845 }),
    dtstamp := exNow }

/-- Concrete listing record: occurrence 1001 of series S1. -/
def c4occA : InformEvent :=
  { key := "S1", occurrenceId := some "1001", subject := some "Series",
    startDateTime := some { date := { year := 2026, month := 1, day := 13 }, sec := 46800 },
    endDateTime := some { date := { year := 2026, month := 1, day := 13 }, sec := 50400 } }

/-- Concrete listing record: occurrence 1002 of the same series S1. -/
def c4occB : InformEvent :=
  { key := "S1", occurrenceId := some "1002", subject := some "Series",
    startDateTime := some { date := { year := 2026, month := 1, day := 14 }, sec := 46800 },
    endDateTime := some { date := { year := 2026, month := 1, day := 14 }, sec := 50400 } }

/-- Concrete single upstream event. -/
def c5event : InformEvent :=
  { key := "A1", subject := some "Test",
    startDateTime := some { date := { year := 2026, month := 1, day := 13 }, sec := 50400 },
    endDateTime := some { date := { year := 2026, month := 1, day := 13 }, sec := 54000 } }

/-- A second clock reading one second after `exNow`. -/
def exNow2 : DateTimeUTC := { date := { year := 2026, month := 2, day := 1 }, sec := 43201 }

/-- Concrete valid single-event PUT body. -/
def cPutBody : ICalEvent :=
  { uid := "cid1", summary := some "Test",
    dtstart := some (.dateTime { date := { year := 2026, month := 1, day := 13 }, sec := 50400 }),
    dtend := some (.dateTime { date := { year := 2026, month := 1, day := 13 }, sec := 54000 }),
    dtstamp := exNow }

/-- The schema a well-formed non-arrhythmic schema comes back as after
the outbound RRULE synthesis and the inbound parse: the identity, except
that daily/allBusinessDays collapses to a Monday-Friday weekly schema. -/
def roundTripSchema : SeriesSchema → SeriesSchema
  | .dailyAllBusinessDays =>
      .weekly ["monday", "tuesday", "wednesday", "thursday", "friday"] 1
  | other => other

/-- Concrete successful-PUT result object. -/
def c7obj : CalendarObject :=
  { path := "/calendars/default/A1.ics", data := "BODY",
    contentLength := 4, etag := "deadbeef" }

/-- A successful scan returns the least matching ordinal at or after the
start. -/
theorem findFirstFrom_spec (p : Date → Bool) :
    ∀ (n : Nat) (z z1 : Int), findFirstFrom p n z = some z1 →
      p (civilFromDays z1) = true ∧ z ≤ z1 ∧
        ∀ w : Int, z ≤ w → w < z1 → p (civilFromDays w) = false := by
  intro n
  induction n with
  | zero => intro z z1 h; simp [findFirstFrom] at h
  | succ n ih =>
      intro z z1 h
      simp only [findFirstFrom] at h
      cases hb : p (civilFromDays z) with
      | true =>
          rw [hb] at h
          simp only [if_true] at h
          cases h
          exact ⟨hb, le_refl _, fun w hw hlt => absurd (lt_of_le_of_lt hw hlt)
            (lt_irrefl _)⟩
      | false =>
          rw [hb] at h
          simp only [if_false, Bool.false_eq_true] at h
          obtain ⟨h1, h2, h3⟩ := ih (z + 1) z1 h
          refine ⟨h1, by omega, fun w hw hlt => ?_⟩
          rcases eq_or_lt_of_le hw with heq | hgt
          · exact heq ▸ hb
          · exact h3 w (by omega) hlt

/-- The scan stops immediately when the start ordinal already matches. -/
theorem findFirstFrom_at_start (p : Date → Bool) (n : Nat) (z : Int)
    (hp : p (civilFromDays z) = true) : findFirstFrom p (n + 1) z = some z := by
  simp [findFirstFrom, hp]

/-- A day matching a rule relative to some anchor also matches the rule
anchored at itself: the BY constraints are anchor-free and the interval
constraint is trivially satisfied at distance zero. -/
theorem dayMatches_self (r : RRuleData) (a d : Date)
    (h : dayMatches r a d = true) : dayMatches r d d = true := by
  unfold dayMatches at h ⊢
  cases hb1 : r.freq == "DAILY" with
  | true => simp [hb1, Int.sub_self]
  | false =>
      rw [hb1] at h
      simp only [Bool.false_eq_true, if_false] at h ⊢
      cases hb2 : r.freq == "WEEKLY" with
      | true =>
          rw [hb2] at h
          simp only [if_true] at h ⊢
          rw [Bool.and_eq_true] at h ⊢
          exact ⟨h.1, by
            simp only [Int.sub_self, Int.zero_ediv, Int.zero_emod,
              beq_self_eq_true]⟩
      | false =>
          rw [hb2] at h
          simp only [Bool.false_eq_true, if_false] at h ⊢
          cases hb3 : r.freq == "MONTHLY" with
          | true =>
              rw [hb3] at h
              simp only [if_true] at h ⊢
              rw [Bool.and_eq_true] at h ⊢
              exact ⟨by
                simp only [Int.sub_self, Int.zero_emod, beq_self_eq_true],
                h.2⟩
          | false =>
              rw [hb3] at h
              simp only [Bool.false_eq_true, if_false] at h ⊢
              cases hb4 : r.freq == "YEARLY" with
              | true =>
                  rw [hb4] at h
                  simp only [if_true] at h ⊢
                  rw [Bool.and_eq_true, Bool.and_eq_true] at h ⊢
                  exact ⟨⟨by
                    simp only [Int.sub_self, Int.zero_emod, beq_self_eq_true],
                    h.1.2⟩, h.2⟩
              | false =>
                  rw [hb4] at h
                  simp at h

/-- Cancellation of a shared prefix and suffix of string
concatenations. -/
theorem string_append_cancel (a x y b : String)
    (h : a ++ x ++ b = a ++ y ++ b) : x = y := by
  have hd := congrArg String.data h
  simp only [String.data_append] at hd
  rw [List.append_assoc, List.append_assoc] at hd
  have hxy := List.append_cancel_right (List.append_cancel_left hd)
  cases x; cases y; exact congrArg String.mk hxy

/-- C8: for every PUT or DELETE on a calendar object path whose stem has
an occurrence (hyphenated) form, the backend rejects with 405 and a body
stating that per-occurrence modification (respectively deletion) is not
supported, and the upstream call trace is empty: no upstream call is
made before the rejection. -/
theorem C8_per_occurrence_rejected (path stem : String)
    (hparse : parse_object_path path = .ok stem)
    (hhy : stemHasHyphen stem = true)
    (body : ICalEvent) (eventExists : Bool) (createdKey : String)
    (finalEvent : InformEvent) (now : DateTimeUTC)
    (ifNoneMatch : Bool) (ifMatch : Option String)
    (upstreamHasEvent : Bool) :
    put_calendar_object path body eventExists createdKey finalEvent now
        ifNoneMatch ifMatch = (.error (405, putOccurrenceMessage), []) ∧
    delete_calendar_object path upstreamHasEvent =
      (.error (405, deleteOccurrenceMessage), []) := by
  unfold put_calendar_object delete_calendar_object
  rw [hparse]
  simp [hhy]

/-- C8 witness at the concrete occurrence-form path `A1-xyz.ics`. -/
theorem C8_per_occurrence_rejected_witness :
    put_calendar_object "/calendars/default/A1-xyz.ics" cPutBody false "N"
        c5event exNow false none = (.error (405, putOccurrenceMessage), []) ∧
    delete_calendar_object "/calendars/default/A1-xyz.ics" true =
      (.error (405, deleteOccurrenceMessage), []) :=
  C8_per_occurrence_rejected "/calendars/default/A1-xyz.ics" "A1-xyz"
    (by decide) (by decide) cPutBody false "N" c5event exNow false none true

/-- C9: at the concrete hyphen-bearing client UUID path, the code
resolves the stem as an occurrence identity (split at the last hyphen,
served from the occurrences window) without ever GETting the whole-stem
key first, and a PUT at the path is rejected 405 — while the claimed
(spec) resolution keeps the whole stem as the event key when it
resolves upstream. -/
theorem C9_uuid_treated_as_occurrence :
    get_calendar_object_resolution
        "/calendars/default/C721345B-380C-4E23-A718-F2E4C2949EBA.ics" =
      .ok (("C721345B-380C-4E23-A718", some "F2E4C2949EBA"),
        .getOccurrences) ∧
    get_calendar_object_resolution_spec
        "/calendars/default/C721345B-380C-4E23-A718-F2E4C2949EBA.ics" true =
      .ok (("C721345B-380C-4E23-A718-F2E4C2949EBA", none),
        .getEvent "C721345B-380C-4E23-A718-F2E4C2949EBA") ∧
    (put_calendar_object
        "/calendars/default/C721345B-380C-4E23-A718-F2E4C2949EBA.ics"
        cPutBody false "N" c5event exNow true none).1 =
      .error (405, putOccurrenceMessage) := by decide

/-- C10 (amended): when the target path stats successfully, no property
update is ever applied: a PROPPATCH naming at least one property to set
or remove is answered with a 207 multistatus containing a single
response with a single 403 propstat carrying every named property, and a
PROPPATCH naming no properties fails 400.  When the opening
`filesystem.stat` fails (missing or forbidden target path), its HTTP
error propagates unchanged and the response is that error, not a
multistatus. -/
theorem C10_proppatch_forbidden (fiPath : String)
    (su ru : List (List String)) (c : Nat) (m : String) :
    (su.flatten ++ ru.flatten ≠ [] →
      handle_proppatch (.ok fiPath) { setProps := su, removeProps := ru } =
        .ok (207, [(fiPath,
          [{ props := su.flatten ++ ru.flatten, status := 403 }])])) ∧
    (su.flatten ++ ru.flatten = [] →
      handle_proppatch (.ok fiPath) { setProps := su, removeProps := ru } =
        .error (400, "webdav: request missing properties to update")) ∧
    handle_proppatch (.error (c, m)) { setProps := su, removeProps := ru } =
      .error (c, m) := by
  refine ⟨fun h => ?_, fun h => ?_, ?_⟩ <;>
    simp [handle_proppatch, webdav_proppatch, List.isEmpty_iff, *,
      Except.map]

/-- C10 witness: one property set, none removed, at an existing target. -/
theorem C10_proppatch_forbidden_witness :
    handle_proppatch (.ok "/calendars/notes.txt")
        { setProps := [["displayname"]], removeProps := [] } =
      .ok (207, [("/calendars/notes.txt",
        [{ props := [["displayname"]].flatten ++
          ([] : List (List String)).flatten, status := 403 }])]) :=
  (C10_proppatch_forbidden "/calendars/notes.txt" [["displayname"]] []
    404 "404 Not Found").1 (by decide)

/-- C10 counterexample: a PROPPATCH naming a property whose target path
is missing is answered with the propagated 404 stat error of
`fs_local.py` — no 207 multistatus and no 403 propstat is produced (and
an empty PROPPATCH at a missing path is likewise answered 404, not
400). -/
theorem C10_counterexample :
    handle_proppatch (.error (404, "404 Not Found: no such file"))
        { setProps := [["displayname"]], removeProps := [] } =
      .error (404, "404 Not Found: no such file") ∧
    (handle_proppatch (.error (404, "404 Not Found: no such file"))
        { setProps := [["displayname"]], removeProps := [] }).toOption =
      none ∧
    handle_proppatch (.error (404, "404 Not Found: no such file"))
        { setProps := [], removeProps := [] } =
      .error (404, "404 Not Found: no such file") := by decide

/-- C3 (amended): for every inbound VEVENT carrying an RRULE whose
DTSTART is a UTC datetime, the translator takes
`hour * 3600 + minute * 60` of the DTSTART wall-clock value directly:
no conversion to the configured upstream timezone is performed and the
seconds component is dropped. -/
theorem C3_start_time_wall_clock (ev : ICalEvent) (r : String)
    (t : DateTimeUTC) (hr : ev.rrule = some r)
    (hds : ev.dtstart = some (.dateTime t)) :
    ∃ res, ical_to_inform_event ev = .ok res ∧
      res.occurrenceStartTime = t.hour * 3600 + t.minute * 60 ∧
      res.seriesStartDate = some t.date := by
  unfold ical_to_inform_event
  rw [hr, hds]
  exact ⟨_, rfl, rfl, rfl⟩

/-- C3 witness at DTSTART 2026-01-13T14:30:45Z: the stored
`occurrenceStartTime` is 52200 (14:30 UTC wall clock, seconds lost). -/
theorem C3_start_time_wall_clock_witness :
    ∃ res, ical_to_inform_event c3ical = .ok res ∧
      res.occurrenceStartTime = 52200 ∧
      res.seriesStartDate = some { year := 2026, month := 1, day := 13 } := by
  obtain ⟨res, h1, h2, h3⟩ := C3_start_time_wall_clock c3ical
    "FREQ=DAILY;INTERVAL=1"
    { date := { year := 2026, month := 1, day := 13 }, sec := 52245 } rfl rfl
  exact ⟨res, h1, by rw [h2]; decide, h3⟩

/-- C3 counterexample: at DTSTART 2026-01-13T14:30:45Z the code stores
52200, while the claimed local-timezone computation (Berlin, UTC+1 on
that date) gives 55845. -/
theorem C3_counterexample :
    (ical_to_inform_event c3ical).map (fun res => res.occurrenceStartTime) =
      .ok 52200 ∧
    occurrenceStartTimeSpec
      { date := { year := 2026, month := 1, day := 13 }, sec := 52245 } =
      55845 ∧
    (52200 : Nat) ≠ 55845 := by decide

/-- C4 (amended): the listing produces one standalone object per
occurrence record with a non-empty key — no deduplication by event key —
and every produced VEVENT carries no RRULE property. -/
theorem C4_listing_per_occurrence (cp : String) (events : List InformEvent)
    (now : DateTimeUTC) :
    (list_calendar_objects cp events now).length =
      (events.filter (fun e => e.key != "")).length ∧
    ∀ o ∈ list_calendar_objects cp events now,
      ∃ e ∈ events, e.key != "" ∧ o = occurrenceObject cp e now ∧
        (inform_occurrence_to_ical e now).rrule = none := by
  constructor
  · simp [list_calendar_objects]
  · intro o ho
    simp only [list_calendar_objects, List.mem_map] at ho
    obtain ⟨e, he, rfl⟩ := ho
    rw [List.mem_filter] at he
    exact ⟨e, he.1, he.2, rfl, rfl⟩

/-- C4 witness on a one-record listing. -/
theorem C4_listing_per_occurrence_witness :
    ∃ e ∈ [c4occA], e.key != "" ∧
      occurrenceObject "/calendars/default/" c4occA exNow =
        occurrenceObject "/calendars/default/" e exNow ∧
      (inform_occurrence_to_ical e exNow).rrule = none := by
  have h := (C4_listing_per_occurrence "/calendars/default/" [c4occA] exNow).2
  exact h _ (by
    have hl : list_calendar_objects "/calendars/default/" [c4occA] exNow =
        [occurrenceObject "/calendars/default/" c4occA exNow] := rfl
    rw [hl]
    exact List.mem_singleton_self _)

/-- C4 counterexample: two occurrence records of the same series key S1
yield two objects (paths `S1-1001.ics` and `S1-1002.ics`), not one, so a
series with several occurrence records in the window does not appear
exactly once. -/
theorem C4_counterexample :
    ((list_calendar_objects "/calendars/default/" [c4occA, c4occB]
        exNow).map (fun o => o.path)) =
      ["/calendars/default/S1-1001.ics", "/calendars/default/S1-1002.ics"] ∧
    c4occA.key = c4occB.key ∧
    (list_calendar_objects "/calendars/default/" [c4occA, c4occB]
        exNow).length ≠ 1 := by decide

/-- C6 (amended): on PUT with an If-Match header, the backend only
checks existence: it fails 412 exactly when the resource is missing, and
when the resource exists the write proceeds for every supplied header
value — the supplied ETag is never compared against the current one (and
no quote stripping is performed). -/
theorem C6_if_match_ignores_etag (path stem : String) (body : ICalEvent)
    (ie : InformEvent) (createdKey : String) (finalEvent : InformEvent)
    (now : DateTimeUTC) (v : String)
    (hparse : parse_object_path path = .ok stem)
    (hhy : stemHasHyphen stem = false)
    (hbody : ical_to_inform_event body = .ok ie) :
    (put_calendar_object path body false createdKey finalEvent now false
        (some v)).1 = .error (412, "Event does not exist") ∧
    ∃ obj, (put_calendar_object path body true createdKey finalEvent now
        false (some v)).1 = .ok obj := by
  unfold put_calendar_object
  rw [hparse]
  simp [hhy, hbody]

/-- C6 witness at the stem `E77` with supplied value `"x"`. -/
theorem C6_if_match_ignores_etag_witness :
    (put_calendar_object "/calendars/default/E77.ics" cPutBody false "N"
        c5event exNow false (some "\"x\"")).1 =
      .error (412, "Event does not exist") ∧
    ∃ obj, (put_calendar_object "/calendars/default/E77.ics" cPutBody true
        "N" c5event exNow false (some "\"x\"")).1 = .ok obj :=
  C6_if_match_ignores_etag "/calendars/default/E77.ics" "E77" cPutBody _
    "N" c5event exNow "\"x\"" (by decide) (by decide) rfl

set_option maxRecDepth 4000 in
/-- C6 counterexample: the resource exists and the supplied If-Match
value (after quote stripping) differs from the current ETag of the
stored event, yet the PUT succeeds instead of failing 412. -/
theorem C6_counterexample :
    ((put_calendar_object "/calendars/default/E77.ics" cPutBody true "N"
        c5event exNow false (some "\"deadbeef\"")).1).toOption.isSome =
      true ∧
    stripQuotes "\"deadbeef\"" ≠
      md5hex (renderOccurrenceICal (inform_occurrence_to_ical c5event
        exNow)) := by decide

/-- C7 (amended): every successful PUT response carries the new ETag
(quoted), and the status code is 201 exactly when the client sent
`If-None-Match: *` and 204 otherwise — it does not depend on whether the
PUT created a new resource. -/
theorem C7_status_follows_header (obj : CalendarObject)
    (ifNoneMatch : Bool) (hetag : obj.etag ≠ "") :
    (caldav_put_route (.ok obj) ifNoneMatch).etagHeader =
      some ("\"" ++ obj.etag ++ "\"") ∧
    ((caldav_put_route (.ok obj) ifNoneMatch).status = 201 ↔
      ifNoneMatch = true) ∧
    ((caldav_put_route (.ok obj) ifNoneMatch).status = 204 ↔
      ifNoneMatch = false) := by
  have h : (obj.etag != "") = true := by
    simp [bne_iff_ne, hetag]
  cases ifNoneMatch <;> simp [caldav_put_route, h]

/-- C7 witness at a concrete object and `If-None-Match: *`. -/
theorem C7_status_follows_header_witness :
    (caldav_put_route (.ok c7obj) true).etagHeader =
      some ("\"" ++ c7obj.etag ++ "\"") ∧
    ((caldav_put_route (.ok c7obj) true).status = 201 ↔ true = true) := by
  obtain ⟨h1, h2, h3⟩ := C7_status_follows_header c7obj true (by decide)
  exact ⟨h1, h2⟩

/-- C7 counterexample: a PUT that creates a new resource (the event did
not exist upstream) but carries no `If-None-Match: *` header is answered
204, not 201. -/
theorem C7_counterexample :
    ((put_calendar_object "/calendars/default/cid1.ics" cPutBody false
        "A1" c5event exNow false none).1).toOption.isSome = true ∧
    (caldav_put_route (put_calendar_object "/calendars/default/cid1.ics"
        cPutBody false "A1" c5event exNow false none).1 false).status =
      204 ∧
    (204 : Nat) ≠ 201 := by decide

/-- C5 (amended): the outbound body is byte-identical across two
translations of the same upstream event exactly when the two DTSTAMP
clock readings render identically; translation is deterministic as a
function of the event record and the clock reading, and equal bodies
give equal ETags. -/
theorem C5_body_determined_by_clock (e : InformEvent)
    (t1 t2 : DateTimeUTC) :
    (renderOccurrenceICal (inform_occurrence_to_ical e t1) =
        renderOccurrenceICal (inform_occurrence_to_ical e t2) ↔
      renderDTCompact t1 = renderDTCompact t2) ∧
    (renderDTCompact t1 = renderDTCompact t2 →
      md5hex (renderOccurrenceICal (inform_occurrence_to_ical e t1)) =
        md5hex (renderOccurrenceICal (inform_occurrence_to_ical e t2))) := by
  have hpre : renderOccurrencePrefix (inform_occurrence_to_ical e t1) =
      renderOccurrencePrefix (inform_occurrence_to_ical e t2) := rfl
  have hd1 : (inform_occurrence_to_ical e t1).dtstamp = t1 := rfl
  have hd2 : (inform_occurrence_to_ical e t2).dtstamp = t2 := rfl
  have hiff : renderOccurrenceICal (inform_occurrence_to_ical e t1) =
      renderOccurrenceICal (inform_occurrence_to_ical e t2) ↔
      renderDTCompact t1 = renderDTCompact t2 := by
    constructor
    · intro h
      unfold renderOccurrenceICal at h
      rw [hpre, hd1, hd2] at h
      rw [String.append_assoc _ (icalLine "END:VEVENT") _,
        String.append_assoc _ (icalLine "END:VEVENT") _] at h
      have hline := string_append_cancel _ _ _ _ h
      unfold icalLine at hline
      exact string_append_cancel "DTSTAMP:" _ _ "\r\n" hline
    · intro h
      unfold renderOccurrenceICal
      rw [hpre, hd1, hd2, h]
  exact ⟨hiff, fun h => congrArg md5hex (hiff.mpr h)⟩

/-- C5 witness: at equal clock readings the bodies and ETags agree. -/
theorem C5_body_determined_by_clock_witness :
    md5hex (renderOccurrenceICal (inform_occurrence_to_ical c5event
        exNow)) =
      md5hex (renderOccurrenceICal (inform_occurrence_to_ical c5event
        exNow)) :=
  (C5_body_determined_by_clock c5event exNow exNow).2 rfl

set_option maxRecDepth 4000 in
/-- C5 counterexample: two runs of the outbound translation of the same
upstream event, one clock second apart and with no change to the event
record, produce different iCalendar bodies (the DTSTAMP line embeds the
clock reading). -/
theorem C5_counterexample :
    renderOccurrenceICal (inform_occurrence_to_ical c5event exNow) ≠
      renderOccurrenceICal (inform_occurrence_to_ical c5event exNow2) := by
  decide

/-- C2 (amended): for every serial upstream event translated outbound
for which an RRULE is synthesized (and the rule engine accepts it and
finds an instance within the scan bound), the emitted DTSTART is the
first instance of the synthesized RRULE evaluated from the series
anchor — it satisfies the rule, is at or after the anchor, and no
earlier day matches — and it remains a valid instance of the emitted
RRULE after the UNTIL clause is appended provided the `seriesEndDate`
from which UNTIL derives is not before it.  (The unconditional claim
fails: see the counterexample, where UNTIL precedes the recomputed first
occurrence.) -/
theorem C2_dtstart_first_instance (e : InformEvent) (now : DateTimeUTC)
    (sd : Date) (sch : SeriesSchema) (r : String) (z : Int)
    (hmode : e.eventMode = "serial") (hwd : e.wholeDayEvent = false)
    (hsd : e.seriesStartDate = some sd)
    (hsch : e.seriesSchema = some sch)
    (hr : inform_series_schema_to_rrule sch = some r)
    (hok : ruleOk (parseRRuleString r) = true)
    (hfind : findFirstFrom
        (dayMatches (parseRRuleString r)
          (occurrence_time_to_utc sd e.occurrenceStartTime).date)
        searchFuel
        (daysFromCivil
          (occurrence_time_to_utc sd e.occurrenceStartTime).date) =
      some z) :
    (inform_event_to_ical e now).dtstart =
      some (.dateTime ⟨civilFromDays z, (occurrence_time_to_utc sd e.occurrenceStartTime).sec⟩) ∧
    dayMatches (parseRRuleString r) (civilFromDays z) (civilFromDays z) =
      true ∧
    daysFromCivil (occurrence_time_to_utc sd e.occurrenceStartTime).date ≤
      z ∧
    (∀ w : Int,
      daysFromCivil (occurrence_time_to_utc sd
        e.occurrenceStartTime).date ≤ w → w < z →
      dayMatches (parseRRuleString r)
        (occurrence_time_to_utc sd e.occurrenceStartTime).date
        (civilFromDays w) = false) ∧
    (∀ u : Date, daysFromCivil (civilFromDays z) ≤ daysFromCivil u →
      instanceWithUntil (parseRRuleString r) (some u) (civilFromDays z)
        (civilFromDays z) = true) := by
  obtain ⟨hmatch, hle, hmin⟩ :=
    findFirstFrom_spec _ searchFuel _ z hfind
  have hself := dayMatches_self _ _ _ hmatch
  refine ⟨?_, hself, hle, hmin, fun u hu => ?_⟩
  · unfold inform_event_to_ical
    simp only [hmode, hsd, hsch, hr, hwd]
    have hss : ("serial" == "single") = false := rfl
    have hsr : ("serial" == "serial") = true := rfl
    simp only [hss, hsr, Bool.false_eq_true, if_false, if_true]
    unfold calculate_first_occurrence
    simp only [hok, if_true, hfind]
  · unfold instanceWithUntil
    simp [hself, hu]

/-- C2 witness at the concrete business-days series anchored on Saturday
2026-01-10: the emitted DTSTART is Monday 2026-01-12 at 13:00 UTC, the
first instance of the synthesized rule. -/
theorem C2_dtstart_first_instance_witness :
    (inform_event_to_ical c2event exNow).dtstart =
      some (.dateTime ⟨civilFromDays (daysFromCivil { year := 2026, month := 1, day := 12 }), (occurrence_time_to_utc { year := 2026, month := 1, day := 10 } c2event.occurrenceStartTime).sec⟩) ∧
    dayMatches (parseRRuleString "FREQ=WEEKLY;BYDAY=MO,TU,WE,TH,FR")
      (civilFromDays (daysFromCivil { year := 2026, month := 1, day := 12 }))
      (civilFromDays (daysFromCivil { year := 2026, month := 1, day := 12 })) =
      true := by
  obtain ⟨h1, h2, h3, h4, h5⟩ := C2_dtstart_first_instance c2event exNow
    { year := 2026, month := 1, day := 10 } .dailyAllBusinessDays
    "FREQ=WEEKLY;BYDAY=MO,TU,WE,TH,FR"
    (daysFromCivil { year := 2026, month := 1, day := 12 })
    rfl rfl rfl rfl rfl (by decide) (by decide)
  exact ⟨h1, h2⟩

set_option maxRecDepth 4000 in
/-- C2 counterexample: for the business-days series starting Saturday
2026-01-10 with `seriesEndDate` 2026-01-11, the emitted RRULE carries
`UNTIL=20260111T235959Z` while the emitted DTSTART is 2026-01-12 — so
DTSTART is not a valid instance of the emitted RRULE once the UNTIL
clause is appended. -/
theorem C2_counterexample :
    (inform_event_to_ical c2event exNow).rrule =
      some "FREQ=WEEKLY;BYDAY=MO,TU,WE,TH,FR;UNTIL=20260111T235959Z" ∧
    (inform_event_to_ical c2event exNow).dtstart =
      some (.dateTime ⟨{ year := 2026, month := 1, day := 12 }, 46800⟩) ∧
    instanceWithUntil
      (parseRRuleString
        "FREQ=WEEKLY;BYDAY=MO,TU,WE,TH,FR;UNTIL=20260111T235959Z")
      (parseRRuleString
        "FREQ=WEEKLY;BYDAY=MO,TU,WE,TH,FR;UNTIL=20260111T235959Z").untilDate
      { year := 2026, month := 1, day := 12 }
      { year := 2026, month := 1, day := 12 } = false := by decide

/-- C1 (amended): for every serial whole-day upstream event with a
subject, no series end date, and a schema whose synthesized RRULE is
accepted by the rule engine and already matched by `seriesStartDate`
(so the first-occurrence recomputation keeps the anchor), the round
trip `inbound(outbound(E))` preserves `eventMode`, `seriesStartDate`,
`subject` and `wholeDayEvent`, and preserves `seriesSchema` except that
the daily/allBusinessDays variant comes back as
weekly Monday-Friday with interval 1 (the outbound side emits
allBusinessDays as `FREQ=WEEKLY` while the inbound side detects
allBusinessDays only under `FREQ=DAILY`).  The counterexample theorem
shows the unamended claim fails on the schema variant and, for events
out of this hypothesis set, on `seriesStartDate`. -/
theorem C1_roundtrip (e : InformEvent) (now : DateTimeUTC) (sd : Date)
    (sch : SeriesSchema) (r : String) (s : String)
    (hmode : e.eventMode = "serial") (hwd : e.wholeDayEvent = true)
    (hsd : e.seriesStartDate = some sd) (hend : e.seriesEndDate = none)
    (hsub : e.subject = some s) (hs : s ≠ "")
    (hsch : e.seriesSchema = some sch)
    (hr : inform_series_schema_to_rrule sch = some r)
    (hok : ruleOk (parseRRuleString r) = true)
    (hnorm : civilFromDays (daysFromCivil sd) = sd)
    (hanchor : dayMatches (parseRRuleString r) sd sd = true)
    (hback : rrule_to_inform_series_schema (parseRRuleString r) =
      roundTripSchema sch) :
    ∃ res, ical_to_inform_event (inform_event_to_ical e now) = .ok res ∧
      res.eventMode = "serial" ∧
      res.seriesStartDate = some sd ∧
      res.subject = some s ∧
      res.wholeDayEvent = true ∧
      res.seriesSchema = some (roundTripSchema sch) := by
  have hfo : calculate_first_occurrence { date := sd, sec := 0 } r =
      { date := sd, sec := 0 } := by
    unfold calculate_first_occurrence
    have hfuel : searchFuel = 1499 + 1 := rfl
    have hfind : findFirstFrom (dayMatches (parseRRuleString r) sd)
        searchFuel (daysFromCivil sd) = some (daysFromCivil sd) := by
      rw [hfuel]
      apply findFirstFrom_at_start
      rw [hnorm]
      exact hanchor
    simp only [hok, if_true, hfind, hnorm]
  have hsb : (s == "") = false := beq_eq_false_iff_ne.mpr hs
  unfold inform_event_to_ical
  simp only [hmode, hsd, hsch, hsub, hend, hr, hwd]
  have hss : ("serial" == "single") = false := rfl
  have hsr : ("serial" == "serial") = true := rfl
  simp only [hss, hsr, Bool.false_eq_true, if_false, if_true, hfo,
    Option.getD_some, hsb]
  unfold ical_to_inform_event
  exact ⟨_, rfl, rfl, rfl, rfl, rfl, by rw [hback]⟩

/-- C1 witness: a whole-day Monday/Wednesday biweekly series anchored on
Monday 2026-01-12 round-trips with every claimed field preserved. -/
theorem C1_roundtrip_witness :
    ∃ res, ical_to_inform_event (inform_event_to_ical c1weekly exNow) =
        .ok res ∧
      res.eventMode = "serial" ∧
      res.seriesStartDate = some { year := 2026, month := 1, day := 12 } ∧
      res.subject = some "Sync" ∧
      res.wholeDayEvent = true ∧
      res.seriesSchema = some (.weekly ["monday", "wednesday"] 2) :=
  C1_roundtrip c1weekly exNow { year := 2026, month := 1, day := 12 }
    (.weekly ["monday", "wednesday"] 2) "FREQ=WEEKLY;INTERVAL=2;BYDAY=MO,WE"
    "Sync" rfl rfl rfl rfl rfl (by decide) rfl (by decide) (by decide)
    (by decide) (by decide) (by decide)

set_option maxRecDepth 8000 in
/-- C1 counterexample: three concrete serial events on which the claim
as stated fails.  A whole-day allBusinessDays series anchored on a
Monday comes back with a weekly schema instead of daily/allBusinessDays;
a whole-day allBusinessDays series anchored on a Saturday comes back
with `seriesStartDate` moved to the following Monday; and a timed daily
series at local midnight comes back with `seriesStartDate` moved one day
earlier by the Berlin-to-UTC conversion. -/
theorem C1_counterexample :
    ((ical_to_inform_event (inform_event_to_ical c1allBiz exNow)).map
        (fun res => res.seriesSchema) =
      .ok (some (.weekly ["monday", "tuesday", "wednesday", "thursday",
        "friday"] 1))) ∧
    c1allBiz.seriesSchema = some .dailyAllBusinessDays ∧
    (some (SeriesSchema.weekly ["monday", "tuesday", "wednesday",
      "thursday", "friday"] 1) ≠ some SeriesSchema.dailyAllBusinessDays) ∧
    ((ical_to_inform_event (inform_event_to_ical c1sat exNow)).map
        (fun res => res.seriesStartDate) =
      .ok (some { year := 2026, month := 1, day := 12 })) ∧
    c1sat.seriesStartDate = some { year := 2026, month := 1, day := 10 } ∧
    ((ical_to_inform_event (inform_event_to_ical c1midnight exNow)).map
        (fun res => res.seriesStartDate) =
      .ok (some { year := 2026, month := 1, day := 9 })) ∧
    c1midnight.seriesStartDate =
      some { year := 2026, month := 1, day := 10 } := by decide

end PyWebdav
